import Mathlib

/-!
# Verification of the tkeyclient protocol and device-client layer

A shallow embedding of the repository's `tkeyclient/proto.py` and
`tkeyclient/tkey.py` modules. Byte strings are `List Nat` (each element a
byte value), Python `int` arguments that may be negative are `Int`,
fallible code returns `Except Err`, and the serial connection is an
explicit state: an inbox of bytes still to be read from the device and an
outbox of frames written to it. Every definition follows the source line
by line; Python peculiarities that matter (negative list indexing, the
growth of a `bytearray` under out-of-range slice assignment) are modelled
by `pyListGet` and `pySliceAssign`.
-/

/-- The exception taxonomy of `tkeyclient/error.py`, plus two constructors
for exceptions Python itself raises (`IndexError` from indexing past the
end of a sequence, `ValueError` from unpacking a too-short sequence),
which the source does not catch. -/
inductive Err where
  | connectionError (msg : String)
  | writeError (msg : String)
  | readError (msg : String)
  | statusError (msg : String)
  | protocolError (msg : String)
  | loadError (msg : String)
  | deviceError (msg : String)
  | configError (msg : String)
  | pyIndexError
  | pyValueError
deriving DecidableEq, Repr

/-- The serial connection as seen by this client: the bytes the device has
queued for reading (`inbox`) and the frames the client has written
(`outbox`). `conn.read(n)` consumes from `inbox`; `conn.write(frame)`
appends to `outbox`. -/
structure St where
  inbox : List Nat
  outbox : List (List Nat)
deriving DecidableEq, Repr

/-- `fwCommand`: protocol ID and maximal data length (a length class),
exactly the named tuple of `proto.py`. Fields are `Int` because the
source validates them against negative values. -/
structure fwCommand where
  id : Int
  length : Int
deriving DecidableEq, Repr

def cmdNameVersion : fwCommand := ⟨0x01, 0⟩

def rspNameVersion : fwCommand := ⟨0x02, 2⟩

def cmdLoadApp : fwCommand := ⟨0x03, 3⟩

def rspLoadApp : fwCommand := ⟨0x04, 1⟩

def cmdLoadAppData : fwCommand := ⟨0x05, 3⟩

def rspLoadAppData : fwCommand := ⟨0x06, 1⟩

def rspLoadAppDataReady : fwCommand := ⟨0x07, 3⟩

def cmdGetUDI : fwCommand := ⟨0x08, 0⟩

def rspGetUDI : fwCommand := ⟨0x09, 2⟩

/-- ID value for the firmware endpoint (`ENDPOINT_FW`). -/
def ENDPOINT_FW : Int := 2

/-- ID value for the application endpoint (`ENDPOINT_APP`). -/
def ENDPOINT_APP : Int := 3

/-- Data lengths for use with command/response frames. -/
def PROTO_DATA_LENGTH : List Nat := [1, 4, 32, 128]

/-- Python list subscription `l[i]` with an `int` index: a negative index
counts from the end of the list, and an index out of range on either side
raises `IndexError`. -/
def pyListGet (l : List Nat) (i : Int) : Except Err Nat :=
  let j : Int := if i < 0 then (l.length : Int) + i else i
  if 0 ≤ j ∧ j < (l.length : Int) then .ok (l.getD j.toNat 0) else .error .pyIndexError

/-- Python sequence subscription with a literal non-negative index. -/
def pyGetNat (l : List Nat) (i : Nat) : Except Err Nat :=
  if i < l.length then .ok (l.getD i 0) else .error .pyIndexError

/-- Python `bytearray` slice assignment `ba[s:e] = val` for non-negative
bounds: both bounds are clipped to the current length, the selected slice
is removed and `val` is spliced in — so a value longer than the selected
slice grows the buffer. -/
def pySliceAssign (ba : List Nat) (s e : Nat) (val : List Nat) : List Nat :=
  let s1 := min s ba.length
  let e1 := min (max e s1) ba.length
  ba.take s1 ++ val ++ ba.drop e1

/-- `proto.byte_length`: return the byte value corresponding to the length
bit from a header. The guard only rejects `index + 1 > len(PROTO_DATA_LENGTH)`;
a negative index reaches Python's list subscription. -/
def byte_length (index : Int) : Except Err Nat :=
  if index + 1 > (PROTO_DATA_LENGTH.length : Int) then
    .error (.protocolError "Invalid command length value")
  else
    pyListGet PROTO_DATA_LENGTH index

/-- `proto.parse_header`: field values `(frame_id, endpoint, status, length)`
of a header byte. The source masks the status field with `& 3`, taking two
bits. -/
def parse_header (header : Nat) : Nat × Nat × Nat × Nat :=
  ((header >>> 5) &&& 3, (header >>> 3) &&& 3, (header >>> 2) &&& 3, header &&& 3)

/-- `proto.create_frame`: build the protocol data structure for a TKey
command, validating each field and zero-padding the payload. The source
calls `byte_length(cmd.length)` twice (inside the data guard, then for the
allocation); both calls happen after `cmd.length` is validated into 0..3,
where `byte_length` cannot fail, so the two calls are merged into one
match. The source's nested `if data: if len(data) > ...:` guard is the
conjunction written here. -/
def create_frame (cmd : fwCommand) (frame_id endpoint : Int) (data : List Nat) :
    Except Err (List Nat) :=
  if cmd.id < 0 ∨ cmd.id > 255 then
    .error (.protocolError "Command ID must not exceed one byte [0..255]")
  else if frame_id < 0 ∨ frame_id > 3 then
    .error (.protocolError "Frame ID must not exceed two bits [0..3]")
  else if endpoint < 0 ∨ endpoint > 3 then
    .error (.protocolError "Frame ID must not exceed two bits [0..3]")
  else if cmd.length < 0 ∨ cmd.length > 3 then
    .error (.protocolError "Length value must not exceed two bits [0..3]")
  else
    match byte_length cmd.length with
    | .error e => .error e
    | .ok L =>
      if data ≠ [] ∧ data.length > L then
        .error (.protocolError "Data exceeds command data length in header")
      else
        let header := (frame_id.toNat <<< 5) ||| (endpoint.toNat <<< 3) ||| cmd.length.toNat
        let frame := ((List.replicate (1 + L) 0).set 0 header).set 1 cmd.id.toNat
        .ok (if data = [] then frame else pySliceAssign frame 2 (2 + data.length) data)

/-- `conn.read(n)`: take up to `n` bytes from the inbox. -/
def pyRead (n : Nat) (st : St) : List Nat × St :=
  (st.inbox.take n, { st with inbox := st.inbox.drop n })

/-- `proto.write_frame`: write a frame to the device (the returned byte
count is unused by the callers modelled here). -/
def write_frame (frame : List Nat) (st : St) : St :=
  { st with outbox := st.outbox ++ [frame] }

/-- `proto.read_frame`: read one response frame. Reads the header byte,
decodes it, on NOK status drains the response body and raises a status
error, otherwise reads the body and checks its length. -/
def read_frame (st : St) : Except Err (List Nat) × St :=
  let (data, st) := pyRead 1 st
  if data.length < 1 then (.error (.readError "No response data"), st)
  else
    let header := data.getD 0 0
    let status := (parse_header header).2.2.1
    let cmd_len := (parse_header header).2.2.2
    match byte_length (cmd_len : Int) with
    | .error e => (.error e, st)
    | .ok length =>
      if status = 1 then
        let (_, st) := pyRead length st
        (.error (.statusError "Response status code not OK (1)"), st)
      else
        let (data, st) := pyRead length st
        if ¬(data.length = length) then
          (.error (.protocolError "Unexpected response data length"), st)
        else
          (.ok (header :: data), st)

/-- `proto.ensure_frames`: compare the header values and protocol IDs of a
command and a response. -/
def ensure_frames (command response : List Nat) : Except Err Bool :=
  match pyGetNat command 0, pyGetNat response 0 with
  | .error e, _ => .error e
  | _, .error e => .error e
  | .ok ch, .ok rh =>
    let cmd_header := parse_header ch
    let res_header := parse_header rh
    if ¬(cmd_header.1 = res_header.1 ∧ cmd_header.2.1 = res_header.2.1) then
      .ok false
    else
      match pyGetNat command 1, pyGetNat response 1 with
      | .error e, _ => .error e
      | _, .error e => .error e
      | .ok cid, .ok rid =>
        if (cid : Int) = cmdNameVersion.id ∧ (rid : Int) ≠ rspNameVersion.id then
          .ok false
        else if (cid : Int) = cmdLoadApp.id ∧ (rid : Int) ≠ rspLoadApp.id then
          .ok false
        else if (cid : Int) = cmdLoadAppData.id then
          if ¬((rid : Int) ∈ [rspLoadAppData.id, rspLoadAppDataReady.id]) then
            .ok false
          else
            .ok true
        else if (cid : Int) = cmdGetUDI.id ∧ (rid : Int) ≠ rspGetUDI.id then
          .ok false
        else
          .ok true

/-- `proto.send_command`: create a frame, write it, read the response and
validate the correlation between the two. -/
def send_command (cmd : fwCommand) (eid fid : Int) (data : List Nat) (st : St) :
    Except Err (List Nat) × St :=
  match create_frame cmd fid eid data with
  | .error e => (.error e, st)
  | .ok frame =>
    let st1 := write_frame frame st
    match read_frame st1 with
    | (.error e, st2) => (.error e, st2)
    | (.ok response, st2) =>
      match ensure_frames frame response with
      | .error e => (.error e, st2)
      | .ok b =>
        if b then (.ok response, st2)
        else (.error (.protocolError "Response mismatch"), st2)

/-!
## BLAKE2s-256

`tkey._get_digest` computes `hashlib.blake2s(data, digest_size=32)`. The
hash is implemented here from RFC 7693 (unkeyed, 32-byte digest): 32-bit
words as `Nat` reduced mod `2 ^ 32`, the state as a 16-element list. The
block loop recurses on a fuel argument equal to the message length so that
every application reduces inside the kernel.
-/

/-- Addition of two 32-bit words. -/
def add32 (a b : Nat) : Nat := (a + b) % 4294967296

/-- Right rotation of a 32-bit word. -/
def rotr32 (x n : Nat) : Nat := ((x >>> n) ||| (x <<< (32 - n))) &&& 4294967295

/-- The BLAKE2s initialization vector. -/
def blakeIV : List Nat :=
  [0x6A09E667, 0xBB67AE85, 0x3C6EF372, 0xA54FF53A,
   0x510E527F, 0x9B05688C, 0x1F83D9AB, 0x5BE0CD19]

/-- The BLAKE2 message schedule. -/
def blakeSigma : List (List Nat) :=
  [[0, 1, 2, 3, 4, 5, 6, 7, 8, 9, 10, 11, 12, 13, 14, 15],
   [14, 10, 4, 8, 9, 15, 13, 6, 1, 12, 0, 2, 11, 7, 5, 3],
   [11, 8, 12, 0, 5, 2, 15, 13, 10, 14, 3, 6, 7, 1, 9, 4],
   [7, 9, 3, 1, 13, 12, 11, 14, 2, 6, 5, 10, 4, 0, 15, 8],
   [9, 0, 5, 7, 2, 4, 10, 15, 14, 1, 11, 12, 6, 8, 3, 13],
   [2, 12, 6, 10, 0, 11, 8, 3, 4, 13, 7, 5, 15, 14, 1, 9],
   [12, 5, 1, 15, 14, 13, 4, 10, 0, 7, 6, 3, 9, 2, 8, 11],
   [13, 11, 7, 14, 12, 1, 3, 9, 5, 0, 15, 4, 8, 6, 2, 10],
   [6, 15, 14, 9, 11, 3, 0, 8, 12, 2, 13, 7, 1, 4, 10, 5],
   [10, 2, 8, 4, 7, 6, 1, 5, 15, 11, 9, 14, 3, 12, 13, 0]]

/-- The BLAKE2 mixing function G on working-vector positions a, b, c, d
with message words x and y. -/
def gmix (v : List Nat) (a b c d : Nat) (x y : Nat) : List Nat :=
  let va := add32 (add32 (v.getD a 0) (v.getD b 0)) x
  let vd := rotr32 ((v.getD d 0) ^^^ va) 16
  let vc := add32 (v.getD c 0) vd
  let vb := rotr32 ((v.getD b 0) ^^^ vc) 12
  let va2 := add32 (add32 va vb) y
  let vd2 := rotr32 (vd ^^^ va2) 8
  let vc2 := add32 vc vd2
  let vb2 := rotr32 (vb ^^^ vc2) 7
  (((v.set a va2).set b vb2).set c vc2).set d vd2

/-- One round of the BLAKE2s compression function, using schedule row s. -/
def blakeRound (m v s : List Nat) : List Nat :=
  let mi := fun i => m.getD (s.getD i 0) 0
  let v1 := gmix v 0 4 8 12 (mi 0) (mi 1)
  let v2 := gmix v1 1 5 9 13 (mi 2) (mi 3)
  let v3 := gmix v2 2 6 10 14 (mi 4) (mi 5)
  let v4 := gmix v3 3 7 11 15 (mi 6) (mi 7)
  let v5 := gmix v4 0 5 10 15 (mi 8) (mi 9)
  let v6 := gmix v5 1 6 11 12 (mi 10) (mi 11)
  let v7 := gmix v6 2 7 8 13 (mi 12) (mi 13)
  gmix v7 3 4 9 14 (mi 14) (mi 15)

/-- Little-endian word from four bytes starting at an offset of a block. -/
def wordAt (block : List Nat) (i : Nat) : Nat :=
  block.getD (4 * i) 0 + 256 * block.getD (4 * i + 1) 0 +
    65536 * block.getD (4 * i + 2) 0 + 16777216 * block.getD (4 * i + 3) 0

/-- The sixteen little-endian message words of a 64-byte block. -/
def blockWords (block : List Nat) : List Nat :=
  (List.range 16).map (wordAt block)

/-- The BLAKE2s compression function F(h, m, t, f). -/
def blakeCompress (h m : List Nat) (t : Nat) (f : Bool) : List Nat :=
  let v := h ++ blakeIV
  let v := v.set 12 ((v.getD 12 0) ^^^ (t % 4294967296))
  let v := v.set 13 ((v.getD 13 0) ^^^ (t / 4294967296 % 4294967296))
  let v := if f then v.set 14 ((v.getD 14 0) ^^^ 4294967295) else v
  let w := (List.range 10).foldl (fun acc r => blakeRound m acc (blakeSigma.getD r [])) v
  (List.range 8).map (fun i => (h.getD i 0) ^^^ (w.getD i 0) ^^^ (w.getD (i + 8) 0))

/-- The BLAKE2s block loop: compress 64-byte blocks, the final (possibly
short) block zero-padded and flagged. The fuel is an upper bound on the
number of blocks; `blake2s` passes the message length. -/
def blake2sGo (fuel : Nat) (h : List Nat) (t : Nat) (rest : List Nat) : List Nat :=
  match fuel with
  | 0 => blakeCompress h (blockWords (rest ++ List.replicate (64 - rest.length) 0))
      (t + rest.length) true
  | fuel + 1 =>
    if rest.length ≤ 64 then
      blakeCompress h (blockWords (rest ++ List.replicate (64 - rest.length) 0))
        (t + rest.length) true
    else
      blake2sGo fuel (blakeCompress h (blockWords (rest.take 64)) (t + 64) false)
        (t + 64) (rest.drop 64)

/-- Four little-endian bytes of a 32-bit word. -/
def wordLE4 (w : Nat) : List Nat :=
  [w % 256, w / 256 % 256, w / 65536 % 256, w / 16777216 % 256]

/-- `hashlib.blake2s(msg, digest_size=32).digest()`: the unkeyed BLAKE2s
hash with a 32-byte digest, as bytes. -/
def blake2s (msg : List Nat) : List Nat :=
  let h0 := blakeIV.set 0 ((blakeIV.getD 0 0) ^^^ 0x01010020)
  (blake2sGo msg.length h0 0 msg).flatMap wordLE4

/-!
## The device-client layer (`tkeyclient/tkey.py`)

`load_app` and `_load_app_data`, with the source file given by its bytes
(`os.path.getsize` is the length, both reads of the file return the same
bytes) and a user-supplied secret given by its encoded bytes (for the
ASCII secrets considered here Python's `len(secret)` equals the length of
the encoding). The serial connection is the explicit `St` state.
-/

/-- Max size for applications to load onto TKey (`APP_MAXSIZE`). -/
def APP_MAXSIZE : Nat := 100 * 1024

/-- `int.to_bytes(4, byteorder='little')` for values below `2 ^ 32`. -/
def toLE4 (n : Nat) : List Nat :=
  [n % 256, n / 256 % 256, n / 65536 % 256, n / 16777216 % 256]

/-- One lowercase hexadecimal digit. -/
def hexDigitChar (n : Nat) : Char :=
  if n < 10 then Char.ofNat (48 + n) else Char.ofNat (87 + n)

/-- `bytes.hex()`: two lowercase hexadecimal digits per byte. -/
def bytesHex (l : List Nat) : String :=
  String.join (l.map (fun b => String.mk [hexDigitChar (b / 16 % 16), hexDigitChar (b % 16)]))

/-- The digest-mismatch message of `load_app`:
`'Hash digests do not match (%s != %s)' % (file_digest.hex(), result_digest.hex())`. -/
def hashMismatch (file_digest result_digest : List Nat) : String :=
  "Hash digests do not match (" ++ bytesHex file_digest ++ " != " ++ bytesHex result_digest ++ ")"

/-- The 127-byte chunking loop of `_load_app_data`: `f.read(127)` repeated
while bytes remain. Fuel-based structural recursion (the fuel is the byte
count, an upper bound on the number of chunks) so applications reduce in
the kernel. -/
def chunksGo (fuel : Nat) (l : List Nat) : List (List Nat) :=
  match fuel with
  | 0 => []
  | fuel + 1 => if l = [] then [] else l.take 127 :: chunksGo fuel (l.drop 127)

/-- The list of 127-byte data frames `_load_app_data` reads from the
source file. -/
def chunks127 (l : List Nat) : List (List Nat) :=
  chunksGo l.length l

/-- The per-chunk loop of `_load_app_data`: send each data frame with
`cmdLoadAppData`, keep the digest carried by a `rspLoadAppDataReady`
response, reject a NOK status byte or an unexpected response ID. -/
def load_app_data_loop (chunks : List (List Nat)) (digest : List Nat) (st : St) :
    Except Err (List Nat) × St :=
  match chunks with
  | [] => (.ok digest, st)
  | df :: rest =>
    match send_command cmdLoadAppData ENDPOINT_FW 2 df st with
    | (.error e, st1) => (.error e, st1)
    | (.ok response, st1) =>
      if response.length < 3 then (.error .pyValueError, st1)
      else
        let response_id := response.getD 1 0
        let status := response.getD 2 0
        if status = 1 then
          (.error (.loadError "Bad status when writing (1 = STATUS_BAD)"), st1)
        else
          let digest1 :=
            if (response_id : Int) = rspLoadAppDataReady.id then (response.drop 3).take 32
            else digest
          if (response_id : Int) ≠ rspLoadAppDataReady.id ∧
              (response_id : Int) ≠ rspLoadAppData.id then
            (.error (.protocolError ("Unexpected response code (" ++ toString response_id ++ ")")), st1)
          else
            load_app_data_loop rest digest1 st1

/-- `TKey._load_app_data`: upload the file in 127-byte chunks and return
the digest reported by the device (starting from a 32-byte zero default). -/
def load_app_data (file : List Nat) (st : St) : Except Err (List Nat) × St :=
  load_app_data_loop (chunks127 file) (List.replicate 32 0) st

/-- The 127-byte command payload `load_app` builds before dispatching the
load command: bytes 0-3 the little-endian size, byte 4 the secret presence
flag, bytes 5.. the secret bytes when one is supplied (by Python slice
assignment, which grows the buffer when the secret exceeds the slot). The
secret is given by its UTF-8 encoded bytes; Python's `len(secret)` counts
characters, which equals the number of encoded bytes for the ASCII
secrets the claims concern. -/
def loadAppPayload (file_size : Nat) (secret : Option (List Nat)) : List Nat :=
  let size_bytes := toLE4 file_size
  let data := List.replicate 127 0
  let data := (((data.set 0 (size_bytes.getD 0 0)).set 1 (size_bytes.getD 1 0)).set 2
    (size_bytes.getD 2 0)).set 3 (size_bytes.getD 3 0)
  let data := data.set 4 0
  match secret with
  | none => data
  | some s => pySliceAssign (data.set 4 1) 5 (5 + s.length) s

/-- `TKey.load_app`: size and digest the source file, validate the size,
build the 127-byte load command payload (little-endian size, secret
presence flag, optional secret bytes), send the load command, check the
device status byte, upload the data and compare digests. -/
def load_app (file : List Nat) (secret : Option (List Nat)) (st : St) :
    Except Err Unit × St :=
  let file_size := file.length
  let file_digest := blake2s file
  if file_size > APP_MAXSIZE then
    (.error (.loadError ("File too big (" ++ toString file_size ++ " > " ++ toString APP_MAXSIZE ++ ")")), st)
  else
    let data := loadAppPayload file_size secret
    match send_command cmdLoadApp ENDPOINT_FW 2 data st with
    | (.error e, st1) => (.error e, st1)
    | (.ok response, st1) =>
      match pyGetNat response 2 with
      | .error e => (.error e, st1)
      | .ok load_status =>
        if load_status = 1 then
          (.error (.loadError "Device not ready (1 = STATUS_BAD)"), st1)
        else
          match load_app_data file st1 with
          | (.error e, st2) => (.error e, st2)
          | (.ok result_digest, st2) =>
            if ¬(file_digest = result_digest) then
              (.error (.loadError (hashMismatch file_digest result_digest)), st2)
            else
              (.ok (), st2)

/-!
## Spec-side correlation table

For the correlation claims the spec states a rule in terms of a static
command-to-response-set table; `spec_response_ids` is that table, written
from the spec's words, to be compared with the source's `ensure_frames`.
-/

/-- The set of response IDs the spec pairs with a command ID: one for each
known command, except the load-app-data command which pairs with both the
interim and the terminal response ID. -/
def spec_response_ids (cid : Int) : List Int :=
  if cid = cmdNameVersion.id then [rspNameVersion.id]
  else if cid = cmdLoadApp.id then [rspLoadApp.id]
  else if cid = cmdLoadAppData.id then [rspLoadAppData.id, rspLoadAppDataReady.id]
  else if cid = cmdGetUDI.id then [rspGetUDI.id]
  else []

/-!
## Scripted device responses

A happy-path upload exchange, as the byte stream the device would queue:
an OK response to the load-app command, an interim OK response per
non-final data chunk, and a terminal data-ready response carrying the
digest. Headers echo frame ID 2 and endpoint 2, the values the client
sends on every `load_app` exchange.
-/

/-- Device script: the OK response to the load-app command (header
frame ID 2, endpoint 2, length class 1; response ID 0x04; status byte 0). -/
def okLoadAppRsp : List Nat := [81, 4, 0, 0, 0]

/-- Device script: the interim OK response to one data chunk (response
ID 0x06). -/
def okDataRsp : List Nat := [81, 6, 0, 0, 0]

/-- Device script: the terminal data-ready response (header length class 3,
response ID 0x07, status byte 0) whose 128-byte body carries digest d at
offset 2 of the body. -/
def readyRsp (d : List Nat) : List Nat := 83 :: 7 :: 0 :: (d ++ List.replicate 94 0)

/-- Device script: n interim data responses in sequence. -/
def interims (n : Nat) : List Nat := (List.replicate n okDataRsp).flatten

/-- The scripted happy-path inbox for one whole upload of a file whose
terminal response carries digest d. -/
def happyInbox (file d : List Nat) : List Nat :=
  okLoadAppRsp ++ interims ((chunks127 file).length - 1) ++ readyRsp d

/-!
## Helper lemmas
-/

lemma byte_length_small (i : Int) (h0 : 0 ≤ i) (h3 : i ≤ 3) :
    ∃ L, byte_length i = .ok L ∧ 1 ≤ L := by
  have h : i = 0 ∨ i = 1 ∨ i = 2 ∨ i = 3 := by omega
  rcases h with h | h | h | h <;> subst h
  · exact ⟨1, rfl, by norm_num⟩
  · exact ⟨4, rfl, by norm_num⟩
  · exact ⟨32, rfl, by norm_num⟩
  · exact ⟨128, rfl, by norm_num⟩

/-- `ensure_frames` only looks at the first two bytes of each frame. -/
lemma ensure_frames_cons_cons (c0 c1 r0 r1 : Nat) (ct rt : List Nat) :
    ensure_frames (c0 :: c1 :: ct) (r0 :: r1 :: rt) = ensure_frames [c0, c1] [r0, r1] := by
  have hc0 : pyGetNat (c0 :: c1 :: ct) 0 = .ok c0 := rfl
  have hc1 : pyGetNat (c0 :: c1 :: ct) 1 = .ok c1 := by simp [pyGetNat]
  have hr0 : pyGetNat (r0 :: r1 :: rt) 0 = .ok r0 := rfl
  have hr1 : pyGetNat (r0 :: r1 :: rt) 1 = .ok r1 := by simp [pyGetNat]
  have hc0b : pyGetNat [c0, c1] 0 = .ok c0 := rfl
  have hc1b : pyGetNat [c0, c1] 1 = .ok c1 := rfl
  have hr0b : pyGetNat [r0, r1] 0 = .ok r0 := rfl
  have hr1b : pyGetNat [r0, r1] 1 = .ok r1 := rfl
  simp only [ensure_frames, hc0, hc1, hr0, hr1, hc0b, hc1b, hr0b, hr1b]

/-- The frame `create_frame` builds for the load-app command at frame ID 2,
endpoint 2, when the payload fits the 127-byte data slot. -/
lemma create_frame_loadApp (data : List Nat) (hd : data.length ≤ 127) :
    create_frame cmdLoadApp 2 2 data =
      .ok (83 :: 3 :: (data ++ List.replicate (127 - data.length) 0)) := by
  unfold create_frame cmdLoadApp
  dsimp only
  rw [if_neg (by norm_num), if_neg (by norm_num), if_neg (by norm_num), if_neg (by norm_num),
    show byte_length (3 : Int) = Except.ok 128 from rfl]
  dsimp only
  rw [if_neg (by rintro ⟨h1, h2⟩; omega)]
  rw [show ((List.replicate (1 + 128) 0).set 0
      ((2 : Int).toNat <<< 5 ||| (2 : Int).toNat <<< 3 ||| (3 : Int).toNat)).set 1 (3 : Int).toNat =
      83 :: 3 :: List.replicate 127 0 from rfl]
  by_cases hd2 : data = []
  · rw [if_pos hd2, hd2]
    rfl
  · rw [if_neg hd2]
    unfold pySliceAssign
    dsimp only
    have hlen : (83 :: 3 :: List.replicate 127 0).length = 129 := by simp
    rw [hlen]
    have hs1 : min 2 129 = 2 := by norm_num
    have he1 : min (max (2 + data.length) (min 2 129)) 129 = 2 + data.length := by omega
    rw [he1, hs1]
    have ht : (83 :: 3 :: List.replicate 127 0).take 2 = [83, 3] := rfl
    have hdrop : (83 :: 3 :: List.replicate 127 0).drop (2 + data.length) =
        List.replicate (127 - data.length) 0 := by
      rw [show 2 + data.length = data.length + 1 + 1 from by omega, List.drop_succ_cons,
        List.drop_succ_cons, List.drop_replicate]
    rw [ht, hdrop]
    simp

/-- The frame `create_frame` builds for the load-app-data command at
frame ID 2, endpoint 2, when the chunk fits the 127-byte data slot. -/
lemma create_frame_loadAppData (data : List Nat) (hd : data.length ≤ 127) :
    create_frame cmdLoadAppData 2 2 data =
      .ok (83 :: 5 :: (data ++ List.replicate (127 - data.length) 0)) := by
  unfold create_frame cmdLoadAppData
  dsimp only
  rw [if_neg (by norm_num), if_neg (by norm_num), if_neg (by norm_num), if_neg (by norm_num),
    show byte_length (3 : Int) = Except.ok 128 from rfl]
  dsimp only
  rw [if_neg (by rintro ⟨h1, h2⟩; omega)]
  rw [show ((List.replicate (1 + 128) 0).set 0
      ((2 : Int).toNat <<< 5 ||| (2 : Int).toNat <<< 3 ||| (3 : Int).toNat)).set 1 (5 : Int).toNat =
      83 :: 5 :: List.replicate 127 0 from rfl]
  by_cases hd2 : data = []
  · rw [if_pos hd2, hd2]
    rfl
  · rw [if_neg hd2]
    unfold pySliceAssign
    dsimp only
    have hlen : (83 :: 5 :: List.replicate 127 0).length = 129 := by simp
    rw [hlen]
    have hs1 : min 2 129 = 2 := by norm_num
    have he1 : min (max (2 + data.length) (min 2 129)) 129 = 2 + data.length := by omega
    rw [he1, hs1]
    have ht : (83 :: 5 :: List.replicate 127 0).take 2 = [83, 5] := rfl
    have hdrop : (83 :: 5 :: List.replicate 127 0).drop (2 + data.length) =
        List.replicate (127 - data.length) 0 := by
      rw [show 2 + data.length = data.length + 1 + 1 from by omega, List.drop_succ_cons,
        List.drop_succ_cons, List.drop_replicate]
    rw [ht, hdrop]
    simp

set_option maxRecDepth 40000

set_option linter.unnecessarySeqFocus false

/-- Reading a scripted five-byte OK response (length class 1). -/
lemma read_frame_okBody (b1 b2 b3 b4 : Nat) (rest : List Nat) (ob : List (List Nat)) :
    read_frame ⟨81 :: b1 :: b2 :: b3 :: b4 :: rest, ob⟩ =
      (.ok [81, b1, b2, b3, b4], ⟨rest, ob⟩) := by
  unfold read_frame pyRead
  norm_num [parse_header]
  rfl

/-- Reading a scripted terminal data-ready response (length class 3)
whose body carries a 32-byte digest. -/
lemma read_frame_readyRsp (d rest : List Nat) (hd : d.length = 32) (ob : List (List Nat)) :
    read_frame ⟨83 :: 7 :: 0 :: (d ++ (List.replicate 94 0 ++ rest)), ob⟩ =
      (.ok (83 :: 7 :: 0 :: (d ++ List.replicate 94 0)), ⟨rest, ob⟩) := by
  have htake : List.take 128 (7 :: 0 :: (d ++ (List.replicate 94 0 ++ rest))) =
      7 :: 0 :: (d ++ List.replicate 94 0) := by
    rw [show (128 : Nat) = 127 + 1 from rfl, List.take_succ_cons,
      show (127 : Nat) = 126 + 1 from rfl, List.take_succ_cons,
      show (126 : Nat) = d.length + 94 from by omega, List.take_append,
      List.take_left' (by simp)]
  have hdrop : List.drop 128 (7 :: 0 :: (d ++ (List.replicate 94 0 ++ rest))) = rest := by
    rw [show (128 : Nat) = 127 + 1 from rfl, List.drop_succ_cons,
      show (127 : Nat) = 126 + 1 from rfl, List.drop_succ_cons,
      show (126 : Nat) = d.length + 94 from by omega, List.drop_append,
      List.drop_left' (by simp)]
  unfold read_frame pyRead
  norm_num [parse_header]
  rw [show byte_length (((83 : Nat) &&& 3 : Nat) : Int) = Except.ok 128 from rfl]
  dsimp only
  rw [if_neg (by decide), if_neg (by omega), htake, hdrop]

/-- One whole load-app exchange against the scripted OK response. -/
lemma send_command_loadApp_script (data : List Nat) (hdl : data.length ≤ 127)
    (rest : List Nat) (ob : List (List Nat)) :
    send_command cmdLoadApp ENDPOINT_FW 2 data ⟨81 :: 4 :: 0 :: 0 :: 0 :: rest, ob⟩ =
      (.ok [81, 4, 0, 0, 0],
       ⟨rest, ob ++ [83 :: 3 :: (data ++ List.replicate (127 - data.length) 0)]⟩) := by
  unfold send_command ENDPOINT_FW
  rw [create_frame_loadApp data hdl]
  dsimp only [write_frame]
  rw [read_frame_okBody]
  dsimp only
  rw [ensure_frames_cons_cons, show ensure_frames [83, 3] [81, 4] = Except.ok true from rfl]
  rfl

/-- One data-chunk exchange against the scripted interim OK response. -/
lemma send_command_loadAppData_interim (df : List Nat) (hdl : df.length ≤ 127)
    (rest : List Nat) (ob : List (List Nat)) :
    send_command cmdLoadAppData ENDPOINT_FW 2 df ⟨81 :: 6 :: 0 :: 0 :: 0 :: rest, ob⟩ =
      (.ok [81, 6, 0, 0, 0],
       ⟨rest, ob ++ [83 :: 5 :: (df ++ List.replicate (127 - df.length) 0)]⟩) := by
  unfold send_command ENDPOINT_FW
  rw [create_frame_loadAppData df hdl]
  dsimp only [write_frame]
  rw [read_frame_okBody]
  dsimp only
  rw [ensure_frames_cons_cons, show ensure_frames [83, 5] [81, 6] = Except.ok true from rfl]
  rfl

/-- One data-chunk exchange against the scripted terminal data-ready
response. -/
lemma send_command_loadAppData_ready (df d : List Nat) (hdl : df.length ≤ 127)
    (hd : d.length = 32) (rest : List Nat) (ob : List (List Nat)) :
    send_command cmdLoadAppData ENDPOINT_FW 2 df
        ⟨83 :: 7 :: 0 :: (d ++ (List.replicate 94 0 ++ rest)), ob⟩ =
      (.ok (83 :: 7 :: 0 :: (d ++ List.replicate 94 0)),
       ⟨rest, ob ++ [83 :: 5 :: (df ++ List.replicate (127 - df.length) 0)]⟩) := by
  unfold send_command ENDPOINT_FW
  rw [create_frame_loadAppData df hdl]
  dsimp only [write_frame]
  rw [read_frame_readyRsp d rest hd]
  dsimp only
  rw [show (83 :: 7 :: 0 :: (d ++ List.replicate 94 0)) =
    83 :: 7 :: (0 :: (d ++ List.replicate 94 0)) from rfl]
  rw [ensure_frames_cons_cons, show ensure_frames [83, 5] [83, 7] = Except.ok true from rfl]
  rfl

/-- Every chunk the 127-byte chunking loop produces fits the data slot. -/
lemma chunksGo_length_le (fuel : Nat) : ∀ (l : List Nat), ∀ c ∈ chunksGo fuel l, c.length ≤ 127 := by
  induction fuel with
  | zero => intro l c hc; simp [chunksGo] at hc
  | succ f ih =>
    intro l c hc
    unfold chunksGo at hc
    by_cases h : l = []
    · simp [h] at hc
    · rw [if_neg h] at hc
      rcases List.mem_cons.mp hc with h1 | h1
      · subst h1
        simp
      · exact ih _ c h1

/-- A non-empty file yields at least one chunk. -/
lemma chunks127_ne_nil (l : List Nat) (h : l ≠ []) : chunks127 l ≠ [] := by
  unfold chunks127
  cases l with
  | nil => contradiction
  | cons a t => simp [chunksGo]

/-- Running the data-upload loop against the scripted responses returns
exactly the digest carried by the terminal response. -/
lemma load_app_data_loop_script (cs : List (List Nat)) (hne : cs ≠ [])
    (hlen : ∀ c ∈ cs, c.length ≤ 127) (acc d rest : List Nat) (hd : d.length = 32)
    (ob : List (List Nat)) :
    ∃ ob2, load_app_data_loop cs acc ⟨interims (cs.length - 1) ++ (readyRsp d ++ rest), ob⟩ =
      (.ok d, ⟨rest, ob2⟩) := by
  induction cs generalizing acc ob with
  | nil => exact absurd rfl hne
  | cons c cs ih =>
    cases cs with
    | nil =>
      have hc : c.length ≤ 127 := hlen c (by simp)
      have hin : interims ((c :: []).length - 1) ++ (readyRsp d ++ rest) =
          83 :: 7 :: 0 :: (d ++ (List.replicate 94 0 ++ rest)) := by
        simp [interims, readyRsp]
      rw [hin]
      unfold load_app_data_loop
      rw [send_command_loadAppData_ready c d hc hd]
      dsimp only
      have hg1 : (83 :: 7 :: 0 :: (d ++ List.replicate 94 0)).getD 1 0 = 7 := rfl
      have hg2 : (83 :: 7 :: 0 :: (d ++ List.replicate 94 0)).getD 2 0 = 0 := rfl
      rw [hg1, hg2]
      rw [if_neg (by simp), if_neg (by norm_num),
        if_neg (by norm_num [rspLoadAppDataReady, rspLoadAppData]),
        if_pos (by norm_num [rspLoadAppDataReady])]
      unfold load_app_data_loop
      rw [show List.drop 3 (83 :: 7 :: 0 :: (d ++ List.replicate 94 0)) =
        d ++ List.replicate 94 0 from rfl, List.take_left' hd]
      exact ⟨_, rfl⟩
    | cons c2 cs2 =>
      have hc : c.length ≤ 127 := hlen c (by simp)
      have hin : interims ((c :: c2 :: cs2).length - 1) ++ (readyRsp d ++ rest) =
          81 :: 6 :: 0 :: 0 :: 0 ::
            (interims ((c2 :: cs2).length - 1) ++ (readyRsp d ++ rest)) := by
        simp [interims, okDataRsp, List.replicate_succ]
      rw [hin]
      unfold load_app_data_loop
      rw [send_command_loadAppData_interim c hc]
      dsimp only
      rw [if_neg (by norm_num)]
      rw [if_neg (by norm_num)]
      rw [if_neg (by norm_num [rspLoadAppDataReady, rspLoadAppData])]
      rw [if_neg (by norm_num [rspLoadAppDataReady])]
      exact ih (by simp) (fun x hx => hlen x (by simp [hx])) acc
        (ob ++ [83 :: 5 :: (c ++ List.replicate (127 - c.length) 0)])

/-- Without a secret the load command payload is exactly 127 bytes. -/
lemma loadAppPayload_none_length (n : Nat) : (loadAppPayload n none).length = 127 := by
  simp [loadAppPayload]

/-- Reduction of a whole scripted upload: the outcome of `load_app` on the
happy-path inbox is decided by whether the scripted device digest equals
the locally computed BLAKE2s digest. -/
lemma load_app_script_reduce (file d : List Nat) (h0 : file ≠ [])
    (h1 : file.length ≤ APP_MAXSIZE) (hd : d.length = 32) :
    ∃ ob2, load_app file none ⟨happyInbox file d, []⟩ =
      (if blake2s file = d then (.ok (), (⟨[], ob2⟩ : St))
       else (.error (.loadError (hashMismatch (blake2s file) d)), ⟨[], ob2⟩)) := by
  obtain ⟨ob2, hloop⟩ := load_app_data_loop_script (chunks127 file) (chunks127_ne_nil file h0)
    (chunksGo_length_le file.length file) (List.replicate 32 0) d [] hd
    ([] ++ [83 :: 3 :: (loadAppPayload file.length none ++
      List.replicate (127 - (loadAppPayload file.length none).length) 0)])
  refine ⟨ob2, ?_⟩
  unfold load_app
  rw [if_neg (by omega)]
  dsimp only
  rw [show (⟨happyInbox file d, []⟩ : St) =
      ⟨81 :: 4 :: 0 :: 0 :: 0 ::
        (interims ((chunks127 file).length - 1) ++ (readyRsp d ++ [])), []⟩ from by
    simp [happyInbox, okLoadAppRsp]]
  rw [send_command_loadApp_script (loadAppPayload file.length none)
    (by rw [loadAppPayload_none_length])]
  dsimp only
  rw [show pyGetNat [81, 4, 0, 0, 0] 2 = Except.ok 0 from rfl]
  dsimp only
  rw [if_neg (by norm_num)]
  unfold load_app_data
  rw [hloop]
  dsimp only
  by_cases hbd : blake2s file = d
  · rw [if_pos hbd, if_neg (not_not_intro hbd)]
  · rw [if_neg hbd, if_pos hbd]

/-!
## The claims
-/

/-- C1: the claim says that for every response header byte whose status
bit (bit 2) is 1, `read_frame` drains the body and fails with a status
error, regardless of the other header fields. The code masks the status
field with `& 3`, so a header with the endpoint's low bit (bit 3) set as
well — here header `0x0C`, endpoint 1, length class 0 — parses as status 3,
is not recognised as NOK, and `read_frame` returns the frame as if the
status were OK. -/
theorem read_frame_no_status_error_on_odd_endpoint :
    Nat.testBit 12 2 = true ∧
    read_frame ⟨[12, 0], []⟩ = (.ok [12, 0], ⟨[], []⟩) :=
  ⟨rfl, rfl⟩

/-- C2: the claim says `parse_header` returns `status = (b >> 2) & 1`,
always 0 or 1. The code computes `status = (b >> 2) & 3`: at header byte
`0x0C` it returns status 3, while `(12 >> 2) & 1 = 1`. -/
theorem parse_header_status_masks_two_bits :
    parse_header 12 = (0, 1, 3, 0) ∧ (12 >>> 2) &&& 1 = 1 :=
  ⟨rfl, rfl⟩

/-- C3: for every non-empty source file within the size bound and every
32-byte digest carried by the device's terminal data-ready response, if
that digest equals the locally computed BLAKE2s-256 digest of the file
then `load_app` returns without error, and if the two digests differ then
`load_app` fails with a load error whose message reports both digests in
hex. -/
theorem load_app_digest_roundtrip (file d : List Nat) (h0 : file ≠ [])
    (h1 : file.length ≤ APP_MAXSIZE) (hd : d.length = 32) :
    (d = blake2s file → ∃ st2, load_app file none ⟨happyInbox file d, []⟩ = (.ok (), st2)) ∧
    (d ≠ blake2s file →
      (load_app file none ⟨happyInbox file d, []⟩).1 =
        .error (.loadError (hashMismatch (blake2s file) d))) := by
  obtain ⟨ob2, hred⟩ := load_app_script_reduce file d h0 h1 hd
  constructor
  · intro hde
    exact ⟨⟨[], ob2⟩, by rw [hred, if_pos hde.symm]⟩
  · intro hne
    rw [hred, if_neg (fun h => hne h.symm)]

/-- Witness for C3: a one-byte file uploaded against a terminal response
carrying exactly its BLAKE2s digest. -/
theorem load_app_digest_roundtrip_witness :
    (blake2s [97] = blake2s [97] →
      ∃ st2, load_app [97] none ⟨happyInbox [97] (blake2s [97]), []⟩ = (.ok (), st2)) ∧
    (blake2s [97] ≠ blake2s [97] →
      (load_app [97] none ⟨happyInbox [97] (blake2s [97]), []⟩).1 =
        .error (.loadError (hashMismatch (blake2s [97]) (blake2s [97])))) :=
  load_app_digest_roundtrip [97] (blake2s [97]) (by decide) (by decide) (by rfl)

/-- C4: the claim says every accepted frame has total length
`2 + table[length_class]`. For the name-version command (length class 0,
table value 1) with no data — accepted — the frame has length 2, not 3. -/
theorem create_frame_short_data_length_two :
    (create_frame cmdNameVersion 1 2 []).map List.length = .ok 2 ∧
    2 + PROTO_DATA_LENGTH.getD 0 0 = 3 :=
  ⟨rfl, rfl⟩

/-- C4 (amended): for every valid descriptor and accepted data, the frame
has total length `1 + table[length_class]` when the data is strictly
shorter than `table[length_class]`, and `2 + table[length_class]` in the
boundary case where the data length equals `table[length_class]` (Python
slice assignment grows the buffer by one byte there). -/
theorem create_frame_length_characterization (cmd : fwCommand) (frame_id endpoint : Int)
    (data : List Nat) (L : Nat)
    (hid0 : 0 ≤ cmd.id) (hid1 : cmd.id ≤ 255)
    (hf0 : 0 ≤ frame_id) (hf1 : frame_id ≤ 3)
    (he0 : 0 ≤ endpoint) (he1 : endpoint ≤ 3)
    (hl0 : 0 ≤ cmd.length) (hl1 : cmd.length ≤ 3)
    (hL : byte_length cmd.length = .ok L)
    (hdata : data.length ≤ L) :
    (create_frame cmd frame_id endpoint data).map List.length =
      .ok (if data.length = L then 2 + L else 1 + L) := by
  obtain ⟨L2, hL2, hL21⟩ := byte_length_small cmd.length hl0 hl1
  rw [hL2] at hL
  have hLL : L2 = L := by simpa using hL
  subst hLL
  unfold create_frame
  rw [if_neg (by omega), if_neg (by omega), if_neg (by omega), if_neg (by omega), hL2]
  dsimp only
  rw [if_neg (by rintro ⟨h1, h2⟩; omega)]
  dsimp only [Except.map]
  by_cases hd : data = []
  · rw [if_pos hd, if_neg (by rw [hd]; intro hc; simp at hc; omega)]
    simp
  · rw [if_neg hd]
    simp only [pySliceAssign, List.length_append, List.length_take, List.length_drop,
      List.length_set, List.length_replicate]
    by_cases hdl : data.length = L2
    · rw [if_pos hdl]
      congr 1
      omega
    · rw [if_neg hdl]
      congr 1
      omega

/-- Witness for C4 (amended): the load-app command with four bytes of data
yields a 129-byte frame. -/
theorem create_frame_length_characterization_witness :
    (create_frame cmdLoadApp 1 2 [1, 2, 3, 4]).map List.length = .ok 129 := by
  have h := create_frame_length_characterization cmdLoadApp 1 2 [1, 2, 3, 4] 128
    (by decide) (by decide) (by decide) (by decide) (by decide) (by decide)
    (by decide) (by decide) rfl (by decide)
  norm_num at h
  exact h

/-- C5: the claim says `encode_frame` always returns a buffer of length
`1 + byte_length(cmd.length_class)` regardless of the supplied data
length. At the boundary — the name-version command (length class 0,
byte length 1) with exactly one byte of data, which the validation
accepts — the returned buffer has length 3, not 2: the slice assignment
at offset 2 grows the 2-byte bytearray. -/
theorem create_frame_boundary_data_grows_buffer :
    (create_frame cmdNameVersion 1 2 [0xAA]).map List.length = .ok 3 ∧
    byte_length cmdNameVersion.length = .ok 1 :=
  ⟨rfl, rfl⟩

/-- C6: for every command frame carrying one of the four known command IDs
and every response frame, `ensure_frames` accepts exactly when the frame
ID and endpoint fields of the two headers agree and the response ID byte
is in the response-ID set paired with the command ID. -/
theorem ensure_frames_known_command_iff (c0 c1 r0 r1 : Nat) (ct rt : List Nat)
    (hid : (c1 : Int) = cmdNameVersion.id ∨ (c1 : Int) = cmdLoadApp.id ∨
           (c1 : Int) = cmdLoadAppData.id ∨ (c1 : Int) = cmdGetUDI.id) :
    ensure_frames (c0 :: c1 :: ct) (r0 :: r1 :: rt) = .ok true ↔
      ((parse_header c0).1 = (parse_header r0).1 ∧
       (parse_header c0).2.1 = (parse_header r0).2.1 ∧
       (r1 : Int) ∈ spec_response_ids (c1 : Int)) := by
  have hc0 : pyGetNat (c0 :: c1 :: ct) 0 = .ok c0 := rfl
  have hc1 : pyGetNat (c0 :: c1 :: ct) 1 = .ok c1 := by simp [pyGetNat]
  have hr0 : pyGetNat (r0 :: r1 :: rt) 0 = .ok r0 := rfl
  have hr1 : pyGetNat (r0 :: r1 :: rt) 1 = .ok r1 := by simp [pyGetNat]
  simp only [ensure_frames, hc0, hc1, hr0, hr1, cmdNameVersion, cmdLoadApp, cmdLoadAppData,
    cmdGetUDI, rspNameVersion, rspLoadApp, rspLoadAppData, rspLoadAppDataReady, rspGetUDI] at *
  by_cases hAB : (parse_header c0).1 = (parse_header r0).1 ∧
      (parse_header c0).2.1 = (parse_header r0).2.1
  · rcases hid with h | h | h | h <;>
      simp only [h, spec_response_ids, cmdNameVersion, cmdLoadApp, cmdLoadAppData, cmdGetUDI,
        rspNameVersion, rspLoadApp, rspLoadAppData, rspLoadAppDataReady, rspGetUDI] <;>
      norm_num [hAB] <;>
      by_cases h2 : (r1 : Int) = 2 <;> by_cases h4 : (r1 : Int) = 4 <;>
      by_cases h6 : (r1 : Int) = 6 <;> by_cases h7 : (r1 : Int) = 7 <;>
      by_cases h9 : (r1 : Int) = 9 <;>
      simp_all
  · rw [if_pos hAB]
    constructor
    · intro h
      simp at h
    · intro h
      exact absurd ⟨h.1, h.2.1⟩ hAB

/-- Witness for C6: a load-app-data command frame correlates with a
terminal data-ready response at matching frame ID and endpoint. -/
theorem ensure_frames_known_command_witness :
    ensure_frames [83, 5] [83, 7] = .ok true :=
  (ensure_frames_known_command_iff 83 5 83 7 [] [] (by decide)).mpr (by decide)

/-- C7: the claim says a secret whose encoded length exceeds 122 bytes is
rejected with a config error before any device I/O. The code performs no
such validation: with a 123-byte secret the payload silently grows to 128
bytes, a 130-byte frame is written to the device (one outbox entry of
length 130), and the call fails only afterwards — here with a read error
on the exhausted transport, never a config error. -/
theorem load_app_long_secret_no_config_error :
    (load_app [0] (some (List.replicate 123 97)) ⟨[], []⟩).1 =
      .error (.readError "No response data") ∧
    (load_app [0] (some (List.replicate 123 97)) ⟨[], []⟩).2.outbox.map List.length = [130] :=
  ⟨rfl, rfl⟩

/-- C8: the claim says `byte_length` fails with a protocol error for every
integer outside 0..3. For index -1 it instead returns 128: the guard only
rejects indices above 3, and Python's negative indexing reads the table
from the end. -/
theorem byte_length_negative_one_ok : byte_length (-1) = .ok 128 := rfl

/-- C8 (amended): `byte_length` returns the table entry for 0..3 and fails
with a protocol error above 3; for -4..-1 Python's negative indexing
returns the table entry counted from the end, and below -4 the lookup
raises an uncaught `IndexError`, not a protocol error. -/
theorem byte_length_characterization (i : Int) :
    byte_length i =
      if 3 < i then .error (.protocolError "Invalid command length value")
      else if 0 ≤ i then .ok (PROTO_DATA_LENGTH.getD i.toNat 0)
      else if -4 ≤ i then .ok (PROTO_DATA_LENGTH.getD (i + 4).toNat 0)
      else .error .pyIndexError := by
  simp only [byte_length, pyListGet, PROTO_DATA_LENGTH, List.length_cons, List.length_nil]
  norm_num
  split_ifs with h1 h2 h3 h4 h5 h6 h7 <;> first | rfl | omega | rw [Int.add_comm 4 i]

/-- C9: for every command frame whose command ID is none of the four known
ones, `ensure_frames` accepts exactly when the frame ID and endpoint
fields of the two headers agree — the response ID byte is never
consulted. -/
theorem ensure_frames_unknown_command_iff (c0 c1 r0 r1 : Nat) (ct rt : List Nat)
    (hid : (c1 : Int) ≠ cmdNameVersion.id ∧ (c1 : Int) ≠ cmdLoadApp.id ∧
           (c1 : Int) ≠ cmdLoadAppData.id ∧ (c1 : Int) ≠ cmdGetUDI.id) :
    ensure_frames (c0 :: c1 :: ct) (r0 :: r1 :: rt) = .ok true ↔
      ((parse_header c0).1 = (parse_header r0).1 ∧
       (parse_header c0).2.1 = (parse_header r0).2.1) := by
  have hc0 : pyGetNat (c0 :: c1 :: ct) 0 = .ok c0 := rfl
  have hc1 : pyGetNat (c0 :: c1 :: ct) 1 = .ok c1 := by simp [pyGetNat]
  have hr0 : pyGetNat (r0 :: r1 :: rt) 0 = .ok r0 := rfl
  have hr1 : pyGetNat (r0 :: r1 :: rt) 1 = .ok r1 := by simp [pyGetNat]
  obtain ⟨h1, h3, h5, h8⟩ := hid
  simp only [ensure_frames, hc0, hc1, hr0, hr1]
  by_cases hAB : (parse_header c0).1 = (parse_header r0).1 ∧
      (parse_header c0).2.1 = (parse_header r0).2.1
  · rw [if_neg (by simpa using hAB)]
    simp [hAB, h1, h3, h5, h8]
  · rw [if_pos hAB]
    constructor
    · intro h
      simp at h
    · intro h
      exact absurd h hAB

/-- Witness for C9: an unknown command ID 0x42 correlates with a response
carrying an arbitrary response ID 0x63 when the headers agree. -/
theorem ensure_frames_unknown_command_witness :
    ensure_frames [83, 66] [83, 99] = .ok true :=
  (ensure_frames_unknown_command_iff 83 66 83 99 [] [] (by decide)).mpr (by decide)

/-- C10: for a zero-byte source file, `load_app` can never succeed: no
data-chunk command is dispatched, the received digest stays the 32-byte
zero default, and that never equals the BLAKE2s digest of the empty byte
string. Against the scripted OK response to the one load-app command it
dispatches (a single 129-byte frame in the outbox), it fails with the
digest-mismatch load error citing the zero digest. -/
theorem load_app_empty_file_digest_mismatch :
    blake2s [] ≠ List.replicate 32 0 ∧
    load_app [] none ⟨okLoadAppRsp, []⟩ =
      (.error (.loadError (hashMismatch (blake2s []) (List.replicate 32 0))),
       ⟨[], [[83, 3] ++ List.replicate 127 0]⟩) ∧
    (∀ st : St, (load_app [] none st).1 ≠ .ok ()) := by
  refine ⟨by decide, rfl, ?_⟩
  intro st
  unfold load_app
  rw [if_neg (by norm_num [APP_MAXSIZE])]
  dsimp only
  cases hsc : send_command cmdLoadApp ENDPOINT_FW 2
      (loadAppPayload (List.length ([] : List Nat)) none) st with
  | mk res st1 =>
    cases res with
    | error e => simp
    | ok response =>
      dsimp only
      cases hre : pyGetNat response 2 with
      | error e => simp
      | ok load_status =>
        dsimp only
        by_cases hls : load_status = 1
        · rw [if_pos hls]
          simp
        · rw [if_neg hls]
          unfold load_app_data
          rw [show chunks127 [] = [] from rfl]
          unfold load_app_data_loop
          dsimp only
          rw [if_pos (by decide)]
          simp
